import Mathlib

/-!
Shallow embedding of the go-workspace fetch example.

The repository contains `fetchall/fetchall.go` (a `main` that runs three
fetch variants over the command-line URLs) and, inside the README, the
source of `fetcher.FetchConcurrent`.  The network is modelled as an
environment assigning each URL a fetch outcome; time is modelled in
centiseconds, matching the `%.2f` rendering used by the Go code; the byte
count returned by `io.Copy` is a natural number.
-/

namespace GoWorkspace

/-- Outcome of one HTTP fetch attempt for a URL, supplied by the
environment (the network): `http.Get` fails with an error text, or the
connection succeeds but reading the body fails, or the whole fetch
succeeds after `centisecs` hundredths of a second having read `nbytes`
bytes. -/
inductive FetchOutcome where
  | connFailure (errText : String)
  | readFailure (errText : String)
  | success (centisecs : Nat) (nbytes : Nat)
deriving DecidableEq, Repr

/-- Observable events of one fetch unit: issuing the HTTP GET, closing the
response body handle, and sending a message on the result channel. -/
inductive FetchEvent where
  | httpGet (url : String)
  | bodyClose
  | chanSend (msg : String)
deriving DecidableEq, Repr

/-- Rendering of `time.Since(start).Seconds()` by `%.2f`, with the time
given in centiseconds. -/
def formatSecs2 (cs : Nat) : String :=
  toString (cs / 100) ++ "." ++ (if cs % 100 < 10 then "0" else "") ++ toString (cs % 100)

/-- Rendering of the byte count by `%7d`: right-aligned in a field of
width seven. -/
def pad7 (n : Nat) : String :=
  String.mk (List.replicate (7 - (toString n).length) ' ') ++ toString n

/-- The message sent on connection failure: `fmt.Sprint(err)`, the bare
error text (fetchConcurrent.go line 259). -/
def connFailureMsg (errText : String) : String := errText

/-- The message sent on body-read failure:
`fmt.Sprintf("while reading %s: %v", url, err)` (fetchConcurrent.go line 266). -/
def readFailureMsg (url errText : String) : String :=
  "while reading " ++ url ++ ": " ++ errText

/-- The message sent on success:
`fmt.Sprintf("%.2fs  %7d  %s", secs, nbytes, url)` (fetchConcurrent.go line 270). -/
def successMsg (cs nb : Nat) (url : String) : String :=
  formatSecs2 cs ++ "s  " ++ pad7 nb ++ "  " ++ url

/-- The one message `FetchConcurrent url ch` sends for outcome `o`. -/
def fetchMessageOf (url : String) (o : FetchOutcome) : String :=
  match o with
  | .connFailure e => connFailureMsg e
  | .readFailure e => readFailureMsg url e
  | .success cs nb => successMsg cs nb url

/-- Event trace of `fetcher.FetchConcurrent(url, ch)` when the network
gives outcome `o` for `url`: on `http.Get` error, send the error text and
return; otherwise copy the body (counting bytes), close the body, then
send either the read-error message or the success line
(fetchConcurrent.go lines 255-271). -/
def FetchConcurrent (url : String) (o : FetchOutcome) : List FetchEvent :=
  match o with
  | .connFailure e => [.httpGet url, .chanSend (connFailureMsg e)]
  | .readFailure e => [.httpGet url, .bodyClose, .chanSend (readFailureMsg url e)]
  | .success cs nb => [.httpGet url, .bodyClose, .chanSend (successMsg cs nb url)]

/-- The message a fetch unit for `url` sends under environment `env`. -/
def fetchMessage (env : String → FetchOutcome) (url : String) : String :=
  fetchMessageOf url (env url)

/-- Whether the outcome got past `http.Get`, i.e. a response handle was
obtained. -/
def FetchOutcome.connEstablished : FetchOutcome → Bool
  | .connFailure _ => false
  | .readFailure _ => true
  | .success _ _ => true

/-- Boolean discriminator for send events. -/
def isSend : FetchEvent → Bool
  | .chanSend _ => true
  | _ => false

/-- Boolean discriminator for body-close events. -/
def isClose : FetchEvent → Bool
  | .bodyClose => true
  | _ => false

/-- Boolean discriminator for HTTP GET events. -/
def isGet : FetchEvent → Bool
  | .httpGet _ => true
  | _ => false

/-- The messages sent on the channel along a trace, in order. -/
def sentMsgs : List FetchEvent → List String
  | [] => []
  | .chanSend m :: t => m :: sentMsgs t
  | _ :: t => sentMsgs t

/-- One line of the program's standard output, tagged by the print
statement in `fetchall.go` that produced it: a variant header
(`fmt.Println("fetcher....: Fetching URLs...")`), a per-URL result line,
a summary line (`fmt.Printf("%.2fs elapsed\n", ...)`), or the blank line
of a bare `fmt.Println()`. -/
inductive OutLine where
  | header (text : String)
  | result (text : String)
  | summary (cs : Nat)
  | blank
deriving DecidableEq, Repr

/-- The exact text of an output line. -/
def OutLine.render : OutLine → String
  | .header t => t
  | .result t => t
  | .summary cs => formatSecs2 cs ++ "s elapsed"
  | .blank => ""

/-- Boolean discriminator for result lines. -/
def isResult : OutLine → Bool
  | .result _ => true
  | _ => false

/-- Boolean discriminator for summary lines. -/
def isSummary : OutLine → Bool
  | .summary _ => true
  | _ => false

/-- Boolean discriminator for header lines. -/
def isHeader : OutLine → Bool
  | .header _ => true
  | _ => false

/-- The texts of the result lines of an output, in print order. -/
def resultTexts (out : List OutLine) : List String :=
  out.filterMap fun l => match l with | .result t => some t | _ => none

/-- The texts of the header lines of an output, in print order. -/
def headerTexts (out : List OutLine) : List String :=
  out.filterMap fun l => match l with | .header t => some t | _ => none

/-- Modelled from the spec: the bodies of `fetcher.FetchWithBuffer` and
`fetcher.Fetch` live in the external go-fetch module and are not in this
repository; only their call sites in `fetchall.go` are.  Per the spec,
each sequential variant issues one HTTP GET per URL and prints one line
per URL immediately after that URL's fetch completes.  `line` gives the
text that variant prints for a URL. -/
def seqVariantOutput (line : String → String) (urls : List String) : List OutLine :=
  urls.map fun u => .result (line u)

/-- Modelled from the spec: the fetch events of one sequential variant,
one HTTP GET per URL, in argument order. -/
def seqVariantTrace (urls : List String) : List FetchEvent :=
  urls.map fun u => .httpGet u

/-- A possible result of main's receive loop: each launched unit
`go fetcher.FetchConcurrent(url, ch)` sends exactly one message on the
shared channel, and the N receives obtain exactly those messages, in some
completion order. -/
def CompletionOrder (env : String → FetchOutcome) (urls : List String)
    (completion : List String) : Prop :=
  completion.Perm (urls.map (fetchMessage env))

/-- The concurrent section of `main` (fetchall.go lines 55-64): the
header, then one printed line per receive in completion order, then the
summary line with elapsed centiseconds `t`. -/
def concurrentSection (completion : List String) (t : Nat) : List OutLine :=
  .header "fetcher.FetchConcurrent: Fetching URLs..."
    :: completion.map .result ++ [.summary t]

/-- The whole standard output of `main` (fetchall.go lines 36-65): the
FetchWithBuffer section, a blank line, the Fetch section, a blank line,
then the concurrent section.  `t1 t2 t3` are the three elapsed times. -/
def mainOutput (bufLine fetchLine : String → String) (urls : List String)
    (completion : List String) (t1 t2 t3 : Nat) : List OutLine :=
  .header "fetcher.FetchWithBuffer: Fetching URLs..."
      :: seqVariantOutput bufLine urls ++ [.summary t1, .blank]
    ++ .header "fetcher.Fetch: Fetching URLs..."
      :: seqVariantOutput fetchLine urls ++ [.summary t2, .blank]
    ++ concurrentSection completion t3

/-- All fetch events of one invocation of `main`: each sequential variant
fetches every URL once, then the concurrent section launches one
`FetchConcurrent` unit per URL. -/
def mainFetchTrace (env : String → FetchOutcome) (urls : List String) :
    List FetchEvent :=
  seqVariantTrace urls ++ seqVariantTrace urls
    ++ (urls.map fun u => FetchConcurrent u (env u)).flatten

/-- How many times the trace issues an HTTP GET for `u`. -/
def countGets (u : String) (tr : List FetchEvent) : Nat :=
  tr.countP fun e => decide (e = .httpGet u)

/-- A concrete environment used by the witnesses: one reachable URL, one
with a connection failure, everything else a read failure. -/
def envW : String → FetchOutcome := fun u =>
  if u = "http://a" then .success 129 59769
  else if u = "http://b" then .connFailure "dial tcp: lookup b: no such host"
  else .readFailure "unexpected EOF"

section Helpers

@[simp] lemma isSummary_header (t : String) : isSummary (.header t) = false := rfl

@[simp] lemma isSummary_result (t : String) : isSummary (.result t) = false := rfl

@[simp] lemma isSummary_summary (cs : Nat) : isSummary (.summary cs) = true := rfl

@[simp] lemma isSummary_blank : isSummary .blank = false := rfl

@[simp] lemma isResult_header (t : String) : isResult (.header t) = false := rfl

@[simp] lemma isResult_result (t : String) : isResult (.result t) = true := rfl

@[simp] lemma isResult_summary (cs : Nat) : isResult (.summary cs) = false := rfl

@[simp] lemma isResult_blank : isResult .blank = false := rfl

@[simp] lemma isHeader_header (t : String) : isHeader (.header t) = true := rfl

@[simp] lemma isHeader_result (t : String) : isHeader (.result t) = false := rfl

@[simp] lemma isHeader_summary (cs : Nat) : isHeader (.summary cs) = false := rfl

@[simp] lemma isHeader_blank : isHeader .blank = false := rfl

lemma countGets_seqVariantTrace (u : String) (urls : List String) :
    countGets u (seqVariantTrace urls) = urls.countP fun v => decide (v = u) := by
  rw [countGets, seqVariantTrace, List.countP_map]
  apply List.countP_congr
  intro v _
  simp

lemma countGets_fetchConcurrent (u v : String) (o : FetchOutcome) :
    countGets u (FetchConcurrent v o) = if v = u then 1 else 0 := by
  cases o <;> by_cases hv : v = u <;>
    simp [FetchConcurrent, countGets, List.countP_cons, hv]

lemma countGets_concTrace (env : String → FetchOutcome) (u : String) :
    ∀ urls : List String,
      countGets u (urls.map fun v => FetchConcurrent v (env v)).flatten =
        urls.countP fun v => decide (v = u)
  | [] => rfl
  | v :: rest => by
    rw [List.map_cons, List.flatten_cons, countGets, List.countP_append,
      List.countP_cons]
    have h1 := countGets_fetchConcurrent u v (env v)
    have h2 := countGets_concTrace env u rest
    rw [countGets] at h1 h2
    rw [h1, h2]
    by_cases hv : v = u <;> simp [hv, Nat.add_comm]

lemma headerTexts_append (a b : List OutLine) :
    headerTexts (a ++ b) = headerTexts a ++ headerTexts b :=
  List.filterMap_append ..

lemma resultTexts_append (a b : List OutLine) :
    resultTexts (a ++ b) = resultTexts a ++ resultTexts b :=
  List.filterMap_append ..

lemma headerTexts_results (line : String → String) (urls : List String) :
    headerTexts (seqVariantOutput line urls) = [] := by
  induction urls with
  | nil => rfl
  | cons u rest _ => simp [seqVariantOutput, headerTexts]

lemma resultTexts_map_result (c : List String) :
    resultTexts (c.map .result) = c := by
  induction c with
  | nil => rfl
  | cons m rest ih => simpa [resultTexts] using ih

lemma countGets_one (u : String) (o : FetchOutcome) :
    (FetchConcurrent u o).countP isGet = 1 := by
  cases o <;> rfl

@[simp] lemma resultTexts_nil : resultTexts [] = [] := rfl

@[simp] lemma resultTexts_cons_header (t : String) (l : List OutLine) :
    resultTexts (.header t :: l) = resultTexts l := rfl

@[simp] lemma resultTexts_cons_result (t : String) (l : List OutLine) :
    resultTexts (.result t :: l) = t :: resultTexts l := rfl

@[simp] lemma resultTexts_cons_summary (cs : Nat) (l : List OutLine) :
    resultTexts (.summary cs :: l) = resultTexts l := rfl

@[simp] lemma resultTexts_cons_blank (l : List OutLine) :
    resultTexts (.blank :: l) = resultTexts l := rfl

@[simp] lemma headerTexts_nil : headerTexts [] = [] := rfl

@[simp] lemma headerTexts_cons_header (t : String) (l : List OutLine) :
    headerTexts (.header t :: l) = t :: headerTexts l := rfl

@[simp] lemma headerTexts_cons_result (t : String) (l : List OutLine) :
    headerTexts (.result t :: l) = headerTexts l := rfl

@[simp] lemma headerTexts_cons_summary (cs : Nat) (l : List OutLine) :
    headerTexts (.summary cs :: l) = headerTexts l := rfl

@[simp] lemma headerTexts_cons_blank (l : List OutLine) :
    headerTexts (.blank :: l) = headerTexts l := rfl

lemma headerTexts_map_result (c : List String) :
    headerTexts (c.map .result) = [] := by
  induction c with
  | nil => rfl
  | cons m rest ih => simpa using ih

lemma concurrentSection_concat (c : List String) (t : Nat) :
    concurrentSection c t =
      (OutLine.header "fetcher.FetchConcurrent: Fetching URLs..."
        :: c.map .result) ++ [.summary t] := by
  simp [concurrentSection]

end Helpers

/-- C1: for a list of N URLs, main's concurrent section launches one fetch
unit per URL, performs exactly N channel receives, and emits exactly N
result lines, all of which precede its summary line. -/
theorem C1_concurrent_emits_N_results (env : String → FetchOutcome)
    (urls completion : List String) (t : Nat)
    (h : CompletionOrder env urls completion) :
    (urls.map fun u => FetchConcurrent u (env u)).length = urls.length ∧
    completion.length = urls.length ∧
    (concurrentSection completion t).countP isResult = urls.length ∧
    concurrentSection completion t =
      (OutLine.header "fetcher.FetchConcurrent: Fetching URLs..."
        :: completion.map .result) ++ [.summary t] := by
  have hlen : completion.length = urls.length :=
    h.length_eq.trans (List.length_map ..)
  refine ⟨List.length_map .., hlen, ?_, concurrentSection_concat ..⟩
  rw [concurrentSection_concat, List.countP_append, List.countP_cons,
    List.countP_map]
  simp [Function.comp_def, hlen]

/-- C1 witness: a concrete two-URL run in which the receives complete in
reverse argument order. -/
theorem C1_witness :
    CompletionOrder envW ["http://a", "http://b"]
      [fetchMessage envW "http://b", fetchMessage envW "http://a"] ∧
    ((["http://a", "http://b"].map fun u => FetchConcurrent u (envW u)).length
        = 2 ∧
      [fetchMessage envW "http://b", fetchMessage envW "http://a"].length = 2 ∧
      (concurrentSection
        [fetchMessage envW "http://b", fetchMessage envW "http://a"]
        129).countP isResult = 2 ∧
      concurrentSection
          [fetchMessage envW "http://b", fetchMessage envW "http://a"] 129 =
        (OutLine.header "fetcher.FetchConcurrent: Fetching URLs..."
          :: [fetchMessage envW "http://b",
              fetchMessage envW "http://a"].map .result) ++ [.summary 129]) :=
  ⟨List.Perm.swap (fetchMessage envW "http://a") (fetchMessage envW "http://b")
      [],
    C1_concurrent_emits_N_results envW ["http://a", "http://b"]
      [fetchMessage envW "http://b", fetchMessage envW "http://a"] 129
      (List.Perm.swap (fetchMessage envW "http://a")
        (fetchMessage envW "http://b") [])⟩

/-- C2: every call to FetchConcurrent sends exactly one message on the
result channel, on every path (connection failure, read failure, success),
and the send is the unit's last action. -/
theorem C2_exactly_one_send (url : String) (o : FetchOutcome) :
    sentMsgs (FetchConcurrent url o) = [fetchMessageOf url o] ∧
    (FetchConcurrent url o).countP isSend = 1 ∧
    (FetchConcurrent url o).getLast? =
      some (.chanSend (fetchMessageOf url o)) := by
  cases o <;> exact ⟨rfl, rfl, rfl⟩

/-- C3: a failed fetch (connection or read failure) makes FetchConcurrent
emit the human-readable error string as that URL's result; the URL is
fetched exactly once (no retry), the section still ends with the summary
line (the process is not terminated), and changing one URL's outcome
leaves every other URL's result message unchanged. -/
theorem C3_failure_is_isolated (env env' : String → FetchOutcome)
    (u e : String)
    (hfail : env u = .connFailure e ∨ env u = .readFailure e)
    (hagree : ∀ v, v ≠ u → env' v = env v) :
    (fetchMessage env u = connFailureMsg e ∨
      fetchMessage env u = readFailureMsg u e) ∧
    (FetchConcurrent u (env u)).countP isGet = 1 ∧
    (∀ v, v ≠ u → fetchMessage env' v = fetchMessage env v) ∧
    (∀ completion t,
      (concurrentSection completion t).getLast? = some (.summary t)) := by
  refine ⟨?_, countGets_one u (env u), ?_, ?_⟩
  · rcases hfail with hc | hr
    · exact Or.inl (by rw [fetchMessage, hc]; rfl)
    · exact Or.inr (by rw [fetchMessage, hr]; rfl)
  · intro v hv
    rw [fetchMessage, hagree v hv, fetchMessage]
  · intro completion t
    rw [concurrentSection_concat, List.getLast?_concat]

/-- C3 witness: a concrete run with a connection failure at one URL and a
second environment agreeing away from it. -/
theorem C3_witness :
    (envW "http://b" = .connFailure "dial tcp: lookup b: no such host" ∨
      envW "http://b" = .readFailure "dial tcp: lookup b: no such host") ∧
    ((fetchMessage envW "http://b" =
        connFailureMsg "dial tcp: lookup b: no such host" ∨
      fetchMessage envW "http://b" =
        readFailureMsg "http://b" "dial tcp: lookup b: no such host") ∧
    (FetchConcurrent "http://b" (envW "http://b")).countP isGet = 1 ∧
    (∀ v, v ≠ "http://b" → fetchMessage envW v = fetchMessage envW v) ∧
    (∀ completion t,
      (concurrentSection completion t).getLast? = some (.summary t))) :=
  ⟨Or.inl (by decide),
    C3_failure_is_isolated envW envW "http://b"
      "dial tcp: lookup b: no such host" (Or.inl (by decide))
      (fun v _ => rfl)⟩

/-- C4: the result message of a successful fetch is exactly the elapsed
seconds rendered by %.2f, then the byte count rendered by %7d, then the
URL, and both numbers are nonnegative. -/
theorem C4_success_line_format (env : String → FetchOutcome) (u : String)
    (cs nb : Nat) (h : env u = .success cs nb) :
    fetchMessage env u = formatSecs2 cs ++ "s  " ++ pad7 nb ++ "  " ++ u ∧
    (0 : Int) ≤ (cs : Int) ∧ (0 : Int) ≤ (nb : Int) := by
  refine ⟨?_, Int.natCast_nonneg cs, Int.natCast_nonneg nb⟩
  rw [fetchMessage, h]
  rfl

/-- C4 witness: the successful URL of the concrete environment. -/
theorem C4_witness :
    envW "http://a" = .success 129 59769 ∧
    (fetchMessage envW "http://a" =
        formatSecs2 129 ++ "s  " ++ pad7 59769 ++ "  " ++ "http://a" ∧
      (0 : Int) ≤ (129 : Int) ∧ (0 : Int) ≤ (59769 : Int)) :=
  ⟨by decide, C4_success_line_format envW "http://a" 129 59769 (by decide)⟩

/-- C5 counterexample: main runs three variants, so even an invocation
with zero URLs prints three summary elapsed-time lines, not one. -/
theorem C5_counterexample :
    ¬ (mainOutput (fun _ => "") (fun _ => "") [] [] 0 0 0).countP isSummary
        = 1 := by
  decide

/-- C5 amended: the summary elapsed-time line is printed exactly once per
variant section, hence exactly three times per invocation. -/
theorem C5_amended_one_summary_per_variant
    (bufLine fetchLine : String → String) (urls completion : List String)
    (t1 t2 t3 : Nat) :
    (mainOutput bufLine fetchLine urls completion t1 t2 t3).countP isSummary
        = 3 ∧
    (seqVariantOutput bufLine urls ++ [OutLine.summary t1]).countP isSummary
        = 1 ∧
    (seqVariantOutput fetchLine urls ++ [OutLine.summary t2]).countP isSummary
        = 1 ∧
    (concurrentSection completion t3).countP isSummary = 1 := by
  refine ⟨?_, ?_, ?_, ?_⟩ <;>
    simp [mainOutput, seqVariantOutput, concurrentSection,
      List.countP_append, List.countP_cons, List.countP_map,
      Function.comp_def]

/-- C6 counterexample: with zero URLs the program does print zero result
lines, but three summary lines rather than one. -/
theorem C6_counterexample :
    ¬ ((mainOutput (fun _ => "") (fun _ => "") [] [] 0 0 0).countP isResult
          = 0 ∧
       (mainOutput (fun _ => "") (fun _ => "") [] [] 0 0 0).countP isSummary
          = 1) := by
  decide

/-- C6 amended: with zero URLs the receive loop gets zero messages and the
program prints zero result lines and one summary line per variant, three
in total. -/
theorem C6_amended_zero_urls (bufLine fetchLine : String → String)
    (env : String → FetchOutcome) (completion : List String)
    (t1 t2 t3 : Nat) (h : CompletionOrder env [] completion) :
    completion = [] ∧
    (mainOutput bufLine fetchLine [] completion t1 t2 t3).countP isResult
        = 0 ∧
    (mainOutput bufLine fetchLine [] completion t1 t2 t3).countP isSummary
        = 3 := by
  have hnil : completion = [] := h.eq_nil
  subst hnil
  exact ⟨rfl, rfl, rfl⟩

/-- C6 witness: a concrete zero-URL invocation. -/
theorem C6_witness :
    CompletionOrder envW [] [] ∧
    (([] : List String) = [] ∧
      (mainOutput (fun _ => "HTTP status: 200 OK")
        (fun _ => "HTTP status: 200 OK") [] [] 1 2 3).countP isResult = 0 ∧
      (mainOutput (fun _ => "HTTP status: 200 OK")
        (fun _ => "HTTP status: 200 OK") [] [] 1 2 3).countP isSummary
          = 3) :=
  ⟨List.Perm.refl [],
    C6_amended_zero_urls (fun _ => "HTTP status: 200 OK")
      (fun _ => "HTTP status: 200 OK") envW [] 1 2 3 (List.Perm.refl [])⟩

/-- C7: whenever the connection succeeds (the read-failure and success
paths), FetchConcurrent closes the response body exactly once, after the
GET and before its final send, so no response handle is leaked. -/
theorem C7_body_closed_after_connection (u : String) (o : FetchOutcome)
    (h : o.connEstablished = true) :
    FetchConcurrent u o =
      [.httpGet u, .bodyClose, .chanSend (fetchMessageOf u o)] ∧
    (FetchConcurrent u o).countP isClose = 1 := by
  cases o with
  | connFailure e => exact absurd h (by simp [FetchOutcome.connEstablished])
  | readFailure e => exact ⟨rfl, rfl⟩
  | success cs nb => exact ⟨rfl, rfl⟩

/-- C7 witness: the success path at a concrete URL. -/
theorem C7_witness :
    (FetchOutcome.success 129 59769).connEstablished = true ∧
    (FetchConcurrent "http://a" (.success 129 59769) =
        [.httpGet "http://a", .bodyClose,
          .chanSend (fetchMessageOf "http://a" (.success 129 59769))] ∧
      (FetchConcurrent "http://a" (.success 129 59769)).countP isClose
          = 1) :=
  ⟨rfl, C7_body_closed_after_connection "http://a" (.success 129 59769) rfl⟩

/-- C8: the concurrent variant prints result lines in the order the
receives complete, and there is an execution with two URLs whose output
order differs from the argument order. -/
theorem C8_no_ordering_guarantee :
    (∀ completion t,
      resultTexts (concurrentSection completion t) = completion) ∧
    ∃ (env : String → FetchOutcome) (u v : String)
        (completion : List String),
      u ≠ v ∧ CompletionOrder env [u, v] completion ∧
      completion ≠ [u, v].map (fetchMessage env) := by
  constructor
  · intro completion t
    simp [concurrentSection, resultTexts_append, resultTexts_map_result]
  · refine ⟨envW, "http://a", "http://b",
      [fetchMessage envW "http://b", fetchMessage envW "http://a"],
      by decide,
      List.Perm.swap (fetchMessage envW "http://a")
        (fetchMessage envW "http://b") [], ?_⟩
    decide

/-- C9: a connection-failure message is exactly the bare error text (the
code appends no URL, so there are runs whose connection-error line does
not contain the failing URL at all), whereas a body-read-failure message
always contains "while reading" followed by the URL. -/
theorem C9_conn_error_line_no_url :
    (∀ u e, fetchMessageOf u (.connFailure e) = e) ∧
    (∀ u e, ("while reading " ++ u).data <:+:
        (fetchMessageOf u (.readFailure e)).data ∧
      u.data <:+: (fetchMessageOf u (.readFailure e)).data) ∧
    ∃ (env : String → FetchOutcome) (u : String),
      (env u).connEstablished = false ∧
      ¬ u.data <:+: (fetchMessage env u).data := by
  refine ⟨fun u e => rfl, ?_, envW, "http://b", by decide, by decide⟩
  intro u e
  constructor
  · exact ⟨[], (": " ++ e).data, by
      show [] ++ ("while reading " ++ u).data ++ (": " ++ e).data
        = (readFailureMsg u e).data
      simp [readFailureMsg]⟩
  · exact ⟨"while reading ".data, (": " ++ e).data, by
      show "while reading ".data ++ u.data ++ (": " ++ e).data
        = (readFailureMsg u e).data
      simp [readFailureMsg]⟩

/-- C10: one invocation runs FetchWithBuffer, Fetch and FetchConcurrent in
that fixed order over the same argument list, so every supplied URL is
fetched three times and the output always has three header lines and
three summary lines, also with zero URLs. -/
theorem C10_three_variants_fixed_order (bufLine fetchLine : String → String)
    (env : String → FetchOutcome) (urls completion : List String)
    (t1 t2 t3 : Nat) :
    headerTexts (mainOutput bufLine fetchLine urls completion t1 t2 t3) =
      ["fetcher.FetchWithBuffer: Fetching URLs...",
       "fetcher.Fetch: Fetching URLs...",
       "fetcher.FetchConcurrent: Fetching URLs..."] ∧
    (∀ u, countGets u (mainFetchTrace env urls) =
      3 * urls.countP fun v => decide (v = u)) ∧
    (mainOutput bufLine fetchLine urls completion t1 t2 t3).countP isHeader
        = 3 ∧
    (mainOutput bufLine fetchLine urls completion t1 t2 t3).countP isSummary
        = 3 := by
  refine ⟨?_, ?_, ?_, ?_⟩
  · simp [mainOutput, concurrentSection, headerTexts_append,
      headerTexts_results, headerTexts_map_result]
  · intro u
    have h1 := countGets_seqVariantTrace u urls
    have h2 := countGets_concTrace env u urls
    rw [countGets] at h1 h2
    rw [mainFetchTrace, countGets, List.countP_append, List.countP_append,
      h1, h2]
    omega
  · simp [mainOutput, seqVariantOutput, concurrentSection,
      List.countP_append, List.countP_cons, List.countP_map,
      Function.comp_def]
  · simp [mainOutput, seqVariantOutput, concurrentSection,
      List.countP_append, List.countP_cons, List.countP_map,
      Function.comp_def]

end GoWorkspace
